import Mathlib

/-!
Verification of the billing/entitlement core of a multi-tenant SaaS backend.

The development shallowly embeds the Python sources:
  * `app/constants.py`  — plan catalog and entitlement evaluator;
  * `app/billing.py`    — event normalizers and the subscription reconciler;
  * `app/security.py`   — webhook HMAC signature verification;
  * `app/main.py`       — the webhook ingestion gate and the administrative
    subscription PATCH endpoint.

Python strings are Lean `String`s; the handful of `str` methods the code
uses (`strip`, `lower`, substring membership, truthiness of `str | None`)
are defined below over `List Char` so everything evaluates by `decide`/`rfl`.
JSON payloads are a small inductive `JsonVal` covering the shapes the code
inspects (null, string, integer, object).  The relational store is a record
of association lists; SQLAlchemy row mutation becomes functional record
update written back into the store.  Store-managed timestamp columns
(`created_at`, `updated_at`, `received_at`) play no role in any verified
property and are omitted from the row records.  The two external library
calls — `hmac.new(...).hexdigest()` and `json.loads` — are uninterpreted
function parameters of the webhook gate, since their internals are outside
the repository.
-/

/-! ## Python string primitives -/

/-- ASCII lowercasing of one character, as Python `str.lower` acts on the
ASCII inputs the billing vocabulary uses. -/
def charLower (c : Char) : Char :=
  if 65 ≤ c.toNat ∧ c.toNat ≤ 90 then Char.ofNat (c.toNat + 32) else c

/-- Python `str.lower`. -/
def strLower (s : String) : String := String.mk (s.toList.map charLower)

/-- The whitespace characters Python `str.strip()` removes. -/
def isPySpace (c : Char) : Bool :=
  c = ' ' || c = '\t' || c = '\n' || c = '\r' || c = '\x0b' || c = '\x0c'

/-- Python `str.strip()` on a character list. -/
def listStrip (l : List Char) : List Char :=
  ((l.dropWhile isPySpace).reverse.dropWhile isPySpace).reverse

/-- Python `str.strip()`. -/
def strStrip (s : String) : String := String.mk (listStrip s.toList)

/-- Whether `pat` occurs as a contiguous sublist of the second argument. -/
def containsSub (pat : List Char) : List Char → Bool
  | [] => pat.isEmpty
  | c :: rest => pat.isPrefixOf (c :: rest) || containsSub pat rest

/-- Python `pat in s` for strings: substring membership. -/
def strContains (s pat : String) : Bool := containsSub pat.toList s.toList

/-- Python truthiness of a `str | None` value: `None` and `""` are falsy. -/
def truthyStr : Option String → Bool
  | none => false
  | some s => !(s = "")

/-- Python `a or b` on `str | None` values: `a` unless `a` is falsy. -/
def pyOrStr (a b : Option String) : Option String :=
  if truthyStr a then a else b

/-! ## Plan catalog (`app/constants.py`) -/

/-- Dict `PLAN_ORDER`: rank of each plan name; `none` for keys outside the dict. -/
def PLAN_ORDER (plan : String) : Option Nat :=
  if plan = "starter" then some 1
  else if plan = "growth" then some 2
  else if plan = "enterprise" then some 3
  else none

/-- Dict `FEATURE_MIN_PLAN`: minimum plan name for each feature key. -/
def FEATURE_MIN_PLAN (feature : String) : Option String :=
  if feature = "team_management" then some "starter"
  else if feature = "basic_analytics" then some "starter"
  else if feature = "priority_support" then some "growth"
  else if feature = "advanced_analytics" then some "growth"
  else if feature = "api_access" then some "enterprise"
  else if feature = "sso" then some "enterprise"
  else none

/-- Dict `PLAN_LIMITS`: (max_users, max_projects) per plan. -/
def PLAN_LIMITS (plan : String) : Option (Nat × Nat) :=
  if plan = "starter" then some (5, 10)
  else if plan = "growth" then some (50, 100)
  else if plan = "enterprise" then some (500, 1000)
  else none

/-- Predicate `is_valid_plan`: membership in `PLAN_ORDER`. -/
def is_valid_plan (plan : String) : Bool := (PLAN_ORDER plan).isSome

/-- Predicate `is_valid_feature`: membership in `FEATURE_MIN_PLAN`. -/
def is_valid_feature (feature : String) : Bool := (FEATURE_MIN_PLAN feature).isSome

/-- Gate `plan_allows_feature`: false on unknown plan or feature, otherwise a
rank comparison.  The `getD 0` defaults are never read on the valid path. -/
def plan_allows_feature (plan feature : String) : Bool :=
  if !(is_valid_plan plan) || !(is_valid_feature feature) then false
  else
    decide ((PLAN_ORDER plan).getD 0 ≥
      (PLAN_ORDER ((FEATURE_MIN_PLAN feature).getD "")).getD 0)

/-! ## Event normalizers (`app/billing.py`) -/

/-- Normalizer `normalize_plan`: maps a raw external plan string onto the canonical
plan vocabulary, or `none`. -/
def normalize_plan (plan_value : Option String) : Option String :=
  if !(truthyStr plan_value) then none
  else
    let normalized := strLower (strStrip (plan_value.getD ""))
    if strContains normalized "enterprise" then some "enterprise"
    else if strContains normalized "growth" || strContains normalized "pro" then some "growth"
    else if strContains normalized "starter" || strContains normalized "basic" then some "starter"
    else if is_valid_plan normalized then some normalized
    else none

/-- Normalizer `normalize_status`: canonical statuses pass through, the four delinquent
Stripe statuses collapse to `canceled`, everything else maps to `none`. -/
def normalize_status (status_value : Option String) : Option String :=
  if !(truthyStr status_value) then none
  else
    let normalized := strLower (strStrip (status_value.getD ""))
    if normalized = "trialing" ∨ normalized = "active" ∨ normalized = "canceled" then
      some normalized
    else if normalized = "unpaid" ∨ normalized = "past_due" ∨
        normalized = "incomplete" ∨ normalized = "incomplete_expired" then
      some "canceled"
    else none

/-- The plan normalizer as §4.3 of the specification words it: trim and
lowercase, substring-match in priority order, fall back to exact catalog
membership, otherwise `none`; empty or absent input yields `none`. -/
def normalizePlanSpec (plan_value : Option String) : Option String :=
  match plan_value with
  | none => none
  | some raw =>
    if raw = "" then none
    else
      let n := strLower (strStrip raw)
      if strContains n "enterprise" then some "enterprise"
      else if strContains n "growth" || strContains n "pro" then some "growth"
      else if strContains n "starter" || strContains n "basic" then some "starter"
      else if is_valid_plan n then some n
      else none

/-! ## JSON payloads

A minimal JSON value type covering the shapes `process_subscription_event`
and `process_stripe_webhook` inspect.  `get` is Python `dict.get(k)`
(first binding wins), `getObj` is `dict.get(k, {})`, and `getStr` reads a
string-valued field as the `str | None` the billing code is typed to
receive (non-string values behave as absent, matching the declared
`str | None` signatures of the normalizers). -/

inductive JsonVal where
  | null
  | str (s : String)
  | int (n : Int)
  | obj (fields : List (String × JsonVal))

def JsonVal.get : JsonVal → String → Option JsonVal
  | .obj fields, k => fields.lookup k
  | _, _ => none

def JsonVal.getObj (j : JsonVal) (k : String) : JsonVal :=
  (j.get k).getD (.obj [])

def JsonVal.getStr (j : JsonVal) (k : String) : Option String :=
  match j.get k with
  | some (.str s) => some s
  | _ => none

/-- Python truthiness of a JSON value. -/
def JsonVal.truthy : JsonVal → Bool
  | .null => false
  | .str s => !(s = "")
  | .int n => !(n = 0)
  | .obj fields => !fields.isEmpty

/-- Python `str(v)` for the JSON scalars the webhook code stringifies
(`customer` and `id` are strings in every Stripe payload; the object
rendering is abbreviated as it is never reached by a verified property). -/
def JsonVal.pyStr : JsonVal → String
  | .str s => s
  | .int n => toString n
  | .null => "None"
  | .obj _ => "dict"

/-- Python `v in {set of strings}` for an optional JSON value: only a
string member of the set qualifies (`None` is never in the set). -/
def jsonStrMem (v : Option JsonVal) (l : List String) : Bool :=
  match v with
  | some (.str s) => l.contains s
  | _ => false

/-! ## Relational rows and store (`app/models.py`)

Store-managed timestamp columns are omitted; `current_period_end` is the
epoch-seconds instant `datetime.fromtimestamp(p, utc)` denotes. -/

structure Organization where
  id : Nat
  slug : String
deriving DecidableEq

structure Subscription where
  plan : String
  status : String
  stripe_customer_id : Option String
  stripe_subscription_id : Option String
  current_period_end : Option Int
deriving DecidableEq

structure BillingEvent where
  organization_id : Option Nat
  event_type : String
  idempotency_key : String
  payload : JsonVal

structure DBState where
  organizations : List Organization
  subscriptions : List (Nat × Subscription)
  billing_events : List BillingEvent

/-- The default row `get_or_create_subscription` lazily inserts. -/
def defaultSubscription : Subscription :=
  { plan := "starter", status := "trialing", stripe_customer_id := none,
    stripe_subscription_id := none, current_period_end := none }

/-- Query `SELECT ... WHERE Subscription.organization_id == orgId` (unique per
organization; the first binding wins as in any store honoring the unique
constraint). -/
def subFor (db : DBState) (orgId : Nat) : Option Subscription :=
  (db.subscriptions.find? (fun e => e.1 == orgId)).map (fun e => e.2)

/-- Write a subscription row back: replace the row keyed by `orgId`, or
append it when absent (ORM flush of a mutated/new row). -/
def setSub (db : DBState) (orgId : Nat) (s : Subscription) : DBState :=
  { db with subscriptions :=
      if (db.subscriptions.find? (fun e => e.1 == orgId)).isSome then
        db.subscriptions.map (fun e => if e.1 == orgId then (orgId, s) else e)
      else db.subscriptions ++ [(orgId, s)] }

/-- Helper `get_or_create_subscription`: fetch the unique row, else insert the
default one. -/
def get_or_create_subscription (db : DBState) (organization_id : Nat) :
    DBState × Subscription :=
  match subFor db organization_id with
  | some subscription => (db, subscription)
  | none => (setSub db organization_id defaultSubscription, defaultSubscription)

/-! ## Subscription reconciler (`app/billing.py`) -/

/-- The recognized lifecycle event types. -/
def recognizedEventTypes : List String :=
  ["customer.subscription.created", "customer.subscription.updated",
    "customer.subscription.deleted"]

/-- Accessor for `event_payload.get("data", {}).get("object", {})`. -/
def eventObjectOf (event_payload : JsonVal) : JsonVal :=
  (event_payload.getObj "data").getObj "object"

/-- Accessor for `event_object.get("metadata", {})`. -/
def metadataOf (event_payload : JsonVal) : JsonVal :=
  (eventObjectOf event_payload).getObj "metadata"

/-- The plan source chain
`event_object.get("plan", {}).get("nickname") or metadata.get("plan") or event_object.get("plan_name")`. -/
def planSource (event_object metadata : JsonVal) : Option String :=
  pyOrStr ((event_object.getObj "plan").getStr "nickname")
    (pyOrStr (metadata.getStr "plan") (event_object.getStr "plan_name"))

/-- The per-field conditional overwrites of `process_subscription_event`
(lines 84-106 of `app/billing.py`), as a pure record merge. -/
def applyEventFields (event_object metadata : JsonVal) (sub : Subscription) :
    Subscription :=
  let sub1 := match normalize_plan (planSource event_object metadata) with
    | some p => { sub with plan := p }
    | none => sub
  let sub2 := match normalize_status (event_object.getStr "status") with
    | some st => { sub1 with status := st }
    | none => sub1
  let sub3 := match event_object.get "customer" with
    | some v => if v.truthy then { sub2 with stripe_customer_id := some v.pyStr } else sub2
    | none => sub2
  let sub4 := match event_object.get "id" with
    | some v => if v.truthy then { sub3 with stripe_subscription_id := some v.pyStr } else sub3
    | none => sub3
  match event_object.get "current_period_end" with
  | some (.int p) => { sub4 with current_period_end := some p }
  | _ => sub4

/-- Reconciler `process_subscription_event`: guard on the event type, resolve the
tenant by metadata slug, lazily create the subscription, merge the event
fields, and report `(updated, organization_id)`.  The store the handler
mutated is returned alongside the source's pair. -/
def process_subscription_event (db : DBState) (event_payload : JsonVal) :
    DBState × Bool × Option Nat :=
  if !(jsonStrMem (event_payload.get "type") recognizedEventTypes) then
    (db, false, none)
  else
    let event_object := eventObjectOf event_payload
    let metadata := metadataOf event_payload
    match metadata.getStr "organization_slug" with
    | none => (db, false, none)
    | some slug =>
      if slug = "" then (db, false, none)
      else
        match db.organizations.find? (fun o => o.slug == slug) with
        | none => (db, false, none)
        | some organization =>
          let r := get_or_create_subscription db organization.id
          let subscription := applyEventFields event_object metadata r.2
          (setSub r.1 organization.id subscription, true, some organization.id)

/-! ## Webhook signature verification (`app/security.py`) -/

/-- Verifier `verify_hmac_signature`.  `hmacHex secret payload` stands for the
stdlib call `hmac.new(secret.encode(), payload, sha256).hexdigest()`;
`hmac.compare_digest` decides the same equality as `=` (in constant
time, which the embedding does not track). -/
def verify_hmac_signature (hmacHex : String → List Nat → String)
    (payload : List Nat) (signature : Option String) (secret : Option String) : Bool :=
  if !(truthyStr secret) then true
  else if !(truthyStr signature) then false
  else signature.getD "" == hmacHex (secret.getD "") payload

/-! ## Webhook ingestion gate (`app/main.py`, `process_stripe_webhook`) -/

/-- The terminal responses of the webhook handler: the two `HTTPException`
rejections, and the two success bodies. -/
inductive WebhookResult where
  | unauthorized
  | invalidJson
  | missingEventId
  | duplicate (idempotency_key : String) (event_type : String)
  | processed (idempotency_key : String) (updated_subscription : Bool)
deriving DecidableEq

/-- Handler `process_stripe_webhook`: signature gate, JSON decode (`jsonLoads`
stands for `json.loads`, returning `none` on a decode error), idempotency
key resolution, ledger deduplication, reconciliation, and the ledger
append committed with the mutation. -/
def process_stripe_webhook (hmacHex : String → List Nat → String)
    (jsonLoads : List Nat → Option JsonVal) (webhook_secret : Option String)
    (db : DBState) (raw_payload : List Nat)
    (stripe_event_id stripe_signature : Option String) : DBState × WebhookResult :=
  if !(verify_hmac_signature hmacHex raw_payload stripe_signature webhook_secret) then
    (db, .unauthorized)
  else
    match jsonLoads raw_payload with
    | none => (db, .invalidJson)
    | some payload =>
      let idempotency_key := pyOrStr stripe_event_id (payload.getStr "id")
      if !(truthyStr idempotency_key) then (db, .missingEventId)
      else
        let key := idempotency_key.getD ""
        match db.billing_events.find? (fun e => e.idempotency_key == key) with
        | some existing_event => (db, .duplicate key existing_event.event_type)
        | none =>
          let r := process_subscription_event db payload
          let billing_event : BillingEvent :=
            { organization_id := r.2.2,
              event_type := (payload.getStr "type").getD "unknown",
              idempotency_key := key,
              payload := payload }
          ({ r.1 with billing_events := r.1.billing_events ++ [billing_event] },
            .processed key r.2.1)

/-! ## Administrative subscription override (`app/main.py`, `update_subscription`) -/

/-- Request body `SubscriptionPatchRequest` (`app/schemas.py`): the `Literal` bounds
pydantic enforces at the boundary are carried as membership proofs. -/
structure SubscriptionPatchRequest where
  plan : String
  status : String
  plan_mem : plan = "starter" ∨ plan = "growth" ∨ plan = "enterprise"
  status_mem : status = "trialing" ∨ status = "active" ∨ status = "canceled"

/-- The PATCH handler's effect on the authenticated organization's
subscription row: set `plan` and `status` from the request body. -/
def update_subscription (subscription : Subscription)
    (payload : SubscriptionPatchRequest) : Subscription :=
  { subscription with plan := payload.plan, status := payload.status }

/-! ## Closed-enum invariant -/

/-- The closed-enum invariant on a subscription row (§3 of the spec). -/
def canonicalSub (s : Subscription) : Prop :=
  (s.plan = "starter" ∨ s.plan = "growth" ∨ s.plan = "enterprise") ∧
  (s.status = "trialing" ∨ s.status = "active" ∨ s.status = "canceled")

instance (s : Subscription) : Decidable (canonicalSub s) := by
  unfold canonicalSub; infer_instance

/-! ## Concrete fixtures used by the witness theorems -/

def demoOrg : Organization := { id := 1, slug := "acme" }

def demoSub : Subscription :=
  { plan := "growth", status := "active", stripe_customer_id := some "cus_1",
    stripe_subscription_id := some "sub_1", current_period_end := some 1700000000 }

def demoDb : DBState :=
  { organizations := [demoOrg], subscriptions := [(1, demoSub)], billing_events := [] }

/-- A status-only `customer.subscription.updated` payload for `acme`. -/
def demoPayload : JsonVal :=
  .obj [("id", .str "evt_1"), ("type", .str "customer.subscription.updated"),
    ("data", .obj [("object", .obj
      [("metadata", .obj [("organization_slug", .str "acme")]),
        ("status", .str "canceled")])])]

/-- An unrecognized-event-type payload. -/
def demoUnknownPayload : JsonVal :=
  .obj [("id", .str "evt_2"), ("type", .str "invoice.paid"),
    ("data", .obj [("object", .obj
      [("metadata", .obj [("organization_slug", .str "acme")])])])]

/-- A stand-in for the HMAC hex digest in witness instantiations. -/
def demoHmac (secret : String) (payload : List Nat) : String :=
  secret ++ toString payload.length

/-- A stand-in JSON decoder that decodes every body to `demoPayload`. -/
def demoLoads (_ : List Nat) : Option JsonVal := some demoPayload

/-- A stand-in JSON decoder that decodes every body to `demoUnknownPayload`. -/
def demoLoadsUnknown (_ : List Nat) : Option JsonVal := some demoUnknownPayload

/-- State `demoDb` before any subscription row exists (exercises lazy creation). -/
def demoDbEmpty : DBState :=
  { organizations := [demoOrg], subscriptions := [], billing_events := [] }

/-- A recognized event whose metadata carries no organization slug. -/
def demoNoSlugPayload : JsonVal :=
  .obj [("id", .str "evt_3"), ("type", .str "customer.subscription.created"),
    ("data", .obj [("object", .obj [])])]

/-- A recognized event whose slug resolves to no organization. -/
def demoGhostPayload : JsonVal :=
  .obj [("id", .str "evt_4"), ("type", .str "customer.subscription.created"),
    ("data", .obj [("object", .obj
      [("metadata", .obj [("organization_slug", .str "ghost")])])])]

/-- The row lazy creation followed by a status-only `canceled` event
produces for a fresh organization. -/
def demoLazySub : Subscription :=
  { plan := "starter", status := "canceled", stripe_customer_id := none,
    stripe_subscription_id := none, current_period_end := none }

theorem valid_plan_cases (p : String) (h : is_valid_plan p = true) :
    p = "starter" ∨ p = "growth" ∨ p = "enterprise" := by
  by_cases h1 : p = "starter"
  · exact Or.inl h1
  by_cases h2 : p = "growth"
  · exact Or.inr (Or.inl h2)
  by_cases h3 : p = "enterprise"
  · exact Or.inr (Or.inr h3)
  simp [is_valid_plan, PLAN_ORDER, h1, h2, h3] at h

theorem normalize_plan_canonical (v : Option String) (p : String)
    (h : normalize_plan v = some p) :
    p = "starter" ∨ p = "growth" ∨ p = "enterprise" := by
  unfold normalize_plan at h
  split at h
  · exact absurd h (by simp)
  · dsimp only at h
    split at h
    · exact Or.inr (Or.inr (by simpa using h.symm))
    split at h
    · exact Or.inr (Or.inl (by simpa using h.symm))
    split at h
    · exact Or.inl (by simpa using h.symm)
    split at h
    · rename_i hvalid
      have hc := valid_plan_cases _ hvalid
      have hp : strLower (strStrip (v.getD "")) = p := by simpa using h
      rw [hp] at hc
      exact hc
    · exact absurd h (by simp)

theorem normalize_status_canonical (v : Option String) (st : String)
    (h : normalize_status v = some st) :
    st = "trialing" ∨ st = "active" ∨ st = "canceled" := by
  unfold normalize_status at h
  split at h
  · exact absurd h (by simp)
  · dsimp only at h
    split at h
    · rename_i hmem
      have hst : strLower (strStrip (v.getD "")) = st := by simpa using h
      rw [hst] at hmem
      exact hmem
    split at h
    · exact Or.inr (Or.inr (by simpa using h.symm))
    · exact absurd h (by simp)

theorem setSub_billing_events (db : DBState) (oid : Nat) (s : Subscription) :
    (setSub db oid s).billing_events = db.billing_events := rfl

theorem setSub_organizations (db : DBState) (oid : Nat) (s : Subscription) :
    (setSub db oid s).organizations = db.organizations := rfl

theorem find?_replace (l : List (Nat × Subscription)) (oid : Nat) (s : Subscription)
    (h : (l.find? (fun e => e.1 == oid)).isSome) :
    ((l.map (fun e => if e.1 == oid then (oid, s) else e)).find? (fun e => e.1 == oid))
      = some (oid, s) := by
  induction l with
  | nil => simp at h
  | cons e tl ih =>
    by_cases he : e.1 = oid
    · simp [he]
    · rw [List.find?_cons_of_neg _ (by simp [he])] at h
      simp only [List.map_cons]
      rw [if_neg (by simp [he]), List.find?_cons_of_neg _ (by simp [he])]
      exact ih h

theorem find?_replace_other (l : List (Nat × Subscription)) (oid oid' : Nat)
    (s : Subscription) (hne : oid' ≠ oid) :
    ((l.map (fun e => if e.1 == oid then (oid, s) else e)).find? (fun e => e.1 == oid'))
      = l.find? (fun e => e.1 == oid') := by
  induction l with
  | nil => rfl
  | cons e tl ih =>
    simp only [List.map_cons]
    by_cases he : e.1 = oid
    · rw [if_pos (by simp [he]),
        List.find?_cons_of_neg _ (by simp; omega),
        List.find?_cons_of_neg _ (by simp [he]; omega)]
      exact ih
    · rw [if_neg (by simp [he])]
      by_cases he' : e.1 = oid'
      · rw [List.find?_cons_of_pos _ (by simp [he']),
          List.find?_cons_of_pos _ (by simp [he'])]
      · rw [List.find?_cons_of_neg _ (by simp [he']),
          List.find?_cons_of_neg _ (by simp [he'])]
        exact ih

theorem subFor_setSub (db : DBState) (oid : Nat) (s : Subscription) :
    subFor (setSub db oid s) oid = some s := by
  unfold subFor setSub
  by_cases h : (db.subscriptions.find? (fun e => e.1 == oid)).isSome
  · simp only [if_pos h]
    rw [find?_replace _ _ _ h]
    rfl
  · simp only [if_neg h]
    rw [List.find?_append]
    have hnone : db.subscriptions.find? (fun e => e.1 == oid) = none := by
      cases hh : db.subscriptions.find? (fun e => e.1 == oid)
      · rfl
      · rw [hh] at h; simp at h
    rw [hnone]
    simp

theorem subFor_setSub_other (db : DBState) (oid oid' : Nat) (s : Subscription)
    (hne : oid' ≠ oid) :
    subFor (setSub db oid s) oid' = subFor db oid' := by
  unfold subFor setSub
  by_cases h : (db.subscriptions.find? (fun e => e.1 == oid)).isSome
  · simp only [if_pos h]
    rw [find?_replace_other _ _ _ _ hne]
  · simp only [if_neg h]
    rw [List.find?_append]
    cases hh : db.subscriptions.find? (fun e => e.1 == oid') with
    | some e => simp [hh]
    | none =>
      simp only [hh, Option.none_or]
      rw [List.find?_cons_of_neg _ (by simp; omega)]
      rfl

theorem get_or_create_billing_events (db : DBState) (oid : Nat) :
    ((get_or_create_subscription db oid).1).billing_events = db.billing_events := by
  unfold get_or_create_subscription
  split <;> rfl

theorem get_or_create_organizations (db : DBState) (oid : Nat) :
    ((get_or_create_subscription db oid).1).organizations = db.organizations := by
  unfold get_or_create_subscription
  split <;> rfl

theorem psev_billing_events (db : DBState) (p : JsonVal) :
    ((process_subscription_event db p).1).billing_events = db.billing_events := by
  unfold process_subscription_event
  split
  · rfl
  · dsimp only
    split
    · rfl
    · split
      · rfl
      · split
        · rfl
        · dsimp only
          rw [setSub_billing_events, get_or_create_billing_events]

theorem psev_organizations (db : DBState) (p : JsonVal) :
    ((process_subscription_event db p).1).organizations = db.organizations := by
  unfold process_subscription_event
  split
  · rfl
  · dsimp only
    split
    · rfl
    · split
      · rfl
      · split
        · rfl
        · dsimp only
          rw [setSub_organizations, get_or_create_organizations]

theorem psev_noop (db : DBState) (p : JsonVal)
    (h : (process_subscription_event db p).2.1 = false) :
    process_subscription_event db p = (db, false, none) := by
  by_cases h1 : jsonStrMem (p.get "type") recognizedEventTypes
  · cases hslug : (metadataOf p).getStr "organization_slug" with
    | none => simp [process_subscription_event, h1, hslug]
    | some slug =>
      by_cases h2 : slug = ""
      · simp [process_subscription_event, h1, hslug, h2]
      · cases horg : db.organizations.find? (fun o => o.slug == slug) with
        | none => simp [process_subscription_event, h1, hslug, h2, horg]
        | some org =>
          exfalso
          simp [process_subscription_event, h1, hslug, h2, horg] at h
  · simp [process_subscription_event, h1]

/-- Claim C4: for every input, `normalize_plan` trims and lowercases and then
substring-matches in priority order (enterprise; growth or pro; starter or
basic), falls back to exact catalog membership, and otherwise returns none,
with empty or absent input yielding none — exactly the behaviour the
specification words as `normalizePlanSpec`. -/
theorem normalize_plan_matches_priority_spec :
    ∀ v : Option String, normalize_plan v = normalizePlanSpec v := by
  intro v
  cases v with
  | none => rfl
  | some raw =>
    by_cases h : raw = "" <;> simp [normalize_plan, normalizePlanSpec, truthyStr, h]

/-- Claim C3 counterexample: the trimmed/lowercased input
"some_future_status" is outside the canonical status set, yet status
normalization returns none for it, not canceled — refuting the claim that
every non-canonical status collapses to canceled. -/
theorem normalize_status_unknown_counterexample :
    strLower (strStrip "some_future_status") ∉
      (["trialing", "active", "canceled"] : List String) ∧
    normalize_status (some "some_future_status") ≠ some "canceled" := by decide

/-- Claim C3 amended: status normalization passes the three canonical
statuses through, collapses exactly the four delinquent statuses (unpaid,
past_due, incomplete, incomplete_expired) to canceled, and maps every other
input — and absent input — to none. -/
theorem normalize_status_amended :
    ∀ s : String,
      (strLower (strStrip s) ∈ (["trialing", "active", "canceled"] : List String) →
        normalize_status (some s) = some (strLower (strStrip s))) ∧
      (strLower (strStrip s) ∈
          (["unpaid", "past_due", "incomplete", "incomplete_expired"] : List String) →
        normalize_status (some s) = some "canceled") ∧
      (strLower (strStrip s) ∉ (["trialing", "active", "canceled"] : List String) →
        strLower (strStrip s) ∉
          (["unpaid", "past_due", "incomplete", "incomplete_expired"] : List String) →
        normalize_status (some s) = none) ∧
      normalize_status none = none := by
  intro s
  refine ⟨?_, ?_, ?_, rfl⟩
  · intro hmem
    have hne : ¬(s = "") := by
      intro hs; subst hs; revert hmem; decide
    have hmem' : strLower (strStrip s) = "trialing" ∨ strLower (strStrip s) = "active" ∨
        strLower (strStrip s) = "canceled" := by simpa using hmem
    unfold normalize_status
    simp [truthyStr, hne, hmem']
  · intro hmem
    have hne : ¬(s = "") := by
      intro hs; subst hs; revert hmem; decide
    have hmem' : strLower (strStrip s) = "unpaid" ∨ strLower (strStrip s) = "past_due" ∨
        strLower (strStrip s) = "incomplete" ∨ strLower (strStrip s) = "incomplete_expired" := by
      simpa using hmem
    unfold normalize_status
    rcases hmem' with h | h | h | h <;> simp [truthyStr, hne, h]
  · intro hnot1 hnot2
    by_cases hs : s = ""
    · subst hs; decide
    · have hn1 : ¬(strLower (strStrip s) = "trialing" ∨ strLower (strStrip s) = "active" ∨
          strLower (strStrip s) = "canceled") := by simpa using hnot1
      have hn2 : ¬(strLower (strStrip s) = "unpaid" ∨ strLower (strStrip s) = "past_due" ∨
          strLower (strStrip s) = "incomplete" ∨ strLower (strStrip s) = "incomplete_expired") := by
        simpa using hnot2
      unfold normalize_status
      simp [truthyStr, hs, hn1, hn2]

/-- Witness for the amended claim C3 at concrete inputs. -/
theorem normalize_status_amended_witness :
    normalize_status (some " Active ") = some "active" ∧
    normalize_status (some "past_due") = some "canceled" ∧
    normalize_status (some "paused") = none := by
  refine ⟨?_, ?_, ?_⟩
  · exact ((normalize_status_amended " Active ").1 (by decide)).trans (by decide)
  · exact (normalize_status_amended "past_due").2.1 (by decide)
  · exact (normalize_status_amended "paused").2.2.1 (by decide) (by decide)

/-- Claim C5: `plan_allows_feature` is false whenever the plan or the
feature is not a recognized enum member; on recognized members it holds iff
the plan rank reaches the feature minimum plan rank; and entitlement is
monotone in plan rank. -/
theorem plan_allows_feature_correct :
    (∀ p f, (is_valid_plan p = false ∨ is_valid_feature f = false) →
      plan_allows_feature p f = false) ∧
    (∀ p f, is_valid_plan p = true → is_valid_feature f = true →
      (plan_allows_feature p f = true ↔
        (PLAN_ORDER p).getD 0 ≥ (PLAN_ORDER ((FEATURE_MIN_PLAN f).getD "")).getD 0)) ∧
    (∀ p q f, is_valid_plan p = true → is_valid_plan q = true →
      (PLAN_ORDER p).getD 0 ≥ (PLAN_ORDER q).getD 0 →
      plan_allows_feature q f = true → plan_allows_feature p f = true) := by
  refine ⟨?_, ?_, ?_⟩
  · intro p f h
    unfold plan_allows_feature
    rcases h with h | h <;> simp [h]
  · intro p f hp hf
    unfold plan_allows_feature
    simp [hp, hf]
  · intro p q f hp hq hrank hqf
    cases hf : is_valid_feature f with
    | false =>
      unfold plan_allows_feature at hqf
      simp [hf] at hqf
    | true =>
      unfold plan_allows_feature at hqf ⊢
      simp [hp, hq, hf] at hqf ⊢
      omega

/-- Witness for claim C5 at concrete plans and features. -/
theorem plan_allows_feature_correct_witness :
    plan_allows_feature "starter" "custom_reports" = false ∧
    (plan_allows_feature "growth" "sso" = true ↔
      (PLAN_ORDER "growth").getD 0 ≥
        (PLAN_ORDER ((FEATURE_MIN_PLAN "sso").getD "")).getD 0) ∧
    plan_allows_feature "enterprise" "advanced_analytics" = true :=
  ⟨plan_allows_feature_correct.1 "starter" "custom_reports" (Or.inr (by decide)),
    plan_allows_feature_correct.2.1 "growth" "sso" (by decide) (by decide),
    plan_allows_feature_correct.2.2 "enterprise" "growth" "advanced_analytics"
      (by decide) (by decide) (by decide) (by decide)⟩

/-- Claim C7: the reconciler returns (false, none) and mutates nothing
when the event type is unrecognized, the organization slug is missing or
empty, or the slug resolves to no organization; and once an organization is
resolved it returns (true, organizationId) even if no field changed. -/
theorem process_subscription_event_resolution :
    ∀ (db : DBState) (payload : JsonVal),
      (jsonStrMem (payload.get "type") recognizedEventTypes = false →
        process_subscription_event db payload = (db, false, none)) ∧
      ((metadataOf payload).getStr "organization_slug" = none ∨
          (metadataOf payload).getStr "organization_slug" = some "" →
        process_subscription_event db payload = (db, false, none)) ∧
      (∀ slug, (metadataOf payload).getStr "organization_slug" = some slug →
        slug ≠ "" → db.organizations.find? (fun o => o.slug == slug) = none →
        process_subscription_event db payload = (db, false, none)) ∧
      (∀ slug org, jsonStrMem (payload.get "type") recognizedEventTypes = true →
        (metadataOf payload).getStr "organization_slug" = some slug → slug ≠ "" →
        db.organizations.find? (fun o => o.slug == slug) = some org →
        (process_subscription_event db payload).2 = (true, some org.id)) := by
  intro db payload
  refine ⟨?_, ?_, ?_, ?_⟩
  · intro h1
    simp [process_subscription_event, h1]
  · intro hslug
    by_cases h1 : jsonStrMem (payload.get "type") recognizedEventTypes
    · rcases hslug with hslug | hslug <;> simp [process_subscription_event, h1, hslug]
    · simp [process_subscription_event, h1]
  · intro slug hslug hne horg
    by_cases h1 : jsonStrMem (payload.get "type") recognizedEventTypes
    · simp [process_subscription_event, h1, hslug, hne, horg]
    · simp [process_subscription_event, h1]
  · intro slug org h1 hslug hne horg
    simp [process_subscription_event, h1, hslug, hne, horg]

/-- Witness for claim C7 on the four concrete fixture payloads. -/
theorem process_subscription_event_resolution_witness :
    process_subscription_event demoDb demoUnknownPayload = (demoDb, false, none) ∧
    process_subscription_event demoDb demoNoSlugPayload = (demoDb, false, none) ∧
    process_subscription_event demoDb demoGhostPayload = (demoDb, false, none) ∧
    (process_subscription_event demoDb demoPayload).2 = (true, some demoOrg.id) :=
  ⟨(process_subscription_event_resolution demoDb demoUnknownPayload).1 (by decide),
    (process_subscription_event_resolution demoDb demoNoSlugPayload).2.1 (Or.inl rfl),
    (process_subscription_event_resolution demoDb demoGhostPayload).2.2.1 "ghost" rfl
      (by decide) rfl,
    (process_subscription_event_resolution demoDb demoPayload).2.2.2 "acme" demoOrg
      (by decide) rfl (by decide) rfl⟩

theorem applyEventFields_plan (eo md : JsonVal) (sub : Subscription) :
    (applyEventFields eo md sub).plan =
      (normalize_plan (planSource eo md)).getD sub.plan := by
  unfold applyEventFields
  (repeat' split) <;> first | rfl | simp_all

theorem applyEventFields_status (eo md : JsonVal) (sub : Subscription) :
    (applyEventFields eo md sub).status =
      (normalize_status (eo.getStr "status")).getD sub.status := by
  unfold applyEventFields
  (repeat' split) <;> first | rfl | simp_all

theorem applyEventFields_customer (eo md : JsonVal) (sub : Subscription) :
    (applyEventFields eo md sub).stripe_customer_id =
      (match eo.get "customer" with
        | some v => if v.truthy then some v.pyStr else sub.stripe_customer_id
        | none => sub.stripe_customer_id) := by
  unfold applyEventFields
  (repeat' split) <;> rfl

theorem applyEventFields_subscription_ref (eo md : JsonVal) (sub : Subscription) :
    (applyEventFields eo md sub).stripe_subscription_id =
      (match eo.get "id" with
        | some v => if v.truthy then some v.pyStr else sub.stripe_subscription_id
        | none => sub.stripe_subscription_id) := by
  unfold applyEventFields
  (repeat' split) <;> rfl

theorem applyEventFields_period_end (eo md : JsonVal) (sub : Subscription) :
    (applyEventFields eo md sub).current_period_end =
      (match eo.get "current_period_end" with
        | some (.int p) => some p
        | _ => sub.current_period_end) := by
  unfold applyEventFields
  (repeat' split) <;> rfl

/-- Claim C2: for a recognized event resolving to a known organization
with an existing subscription, the reconciler updates plan, status,
customer ref, subscription ref and period end independently — each field
takes the event value when one is resolvable and keeps its prior value
otherwise. -/
theorem process_subscription_event_frame :
    ∀ (db : DBState) (payload : JsonVal) (slug : String) (org : Organization)
      (sub : Subscription),
      jsonStrMem (payload.get "type") recognizedEventTypes = true →
      (metadataOf payload).getStr "organization_slug" = some slug → slug ≠ "" →
      db.organizations.find? (fun o => o.slug == slug) = some org →
      subFor db org.id = some sub →
      ∃ sub', subFor (process_subscription_event db payload).1 org.id = some sub' ∧
        sub'.plan =
          (normalize_plan (planSource (eventObjectOf payload) (metadataOf payload))).getD
            sub.plan ∧
        sub'.status =
          (normalize_status ((eventObjectOf payload).getStr "status")).getD sub.status ∧
        sub'.stripe_customer_id =
          (match (eventObjectOf payload).get "customer" with
            | some v => if v.truthy then some v.pyStr else sub.stripe_customer_id
            | none => sub.stripe_customer_id) ∧
        sub'.stripe_subscription_id =
          (match (eventObjectOf payload).get "id" with
            | some v => if v.truthy then some v.pyStr else sub.stripe_subscription_id
            | none => sub.stripe_subscription_id) ∧
        sub'.current_period_end =
          (match (eventObjectOf payload).get "current_period_end" with
            | some (.int p) => some p
            | _ => sub.current_period_end) := by
  intro db payload slug org sub h1 hslug hne horg hsub
  have hg : get_or_create_subscription db org.id = (db, sub) := by
    unfold get_or_create_subscription; rw [hsub]
  have hred : (process_subscription_event db payload).1 =
      setSub db org.id (applyEventFields (eventObjectOf payload) (metadataOf payload) sub) := by
    simp [process_subscription_event, h1, hslug, hne, horg, hg]
  refine ⟨applyEventFields (eventObjectOf payload) (metadataOf payload) sub,
    ?_, ?_, ?_, ?_, ?_, ?_⟩
  · rw [hred, subFor_setSub]
  · exact applyEventFields_plan _ _ _
  · exact applyEventFields_status _ _ _
  · exact applyEventFields_customer _ _ _
  · exact applyEventFields_subscription_ref _ _ _
  · exact applyEventFields_period_end _ _ _

/-- Witness for claim C2: a status-only event for acme cancels the
subscription but leaves the previously recorded growth plan intact. -/
theorem process_subscription_event_frame_witness :
    ∃ sub', subFor (process_subscription_event demoDb demoPayload).1 1 = some sub' ∧
      sub'.plan = "growth" ∧ sub'.status = "canceled" := by
  obtain ⟨sub', h0, h1, h2, _, _, _⟩ :=
    process_subscription_event_frame demoDb demoPayload "acme" demoOrg demoSub
      (by decide) rfl (by decide) rfl rfl
  exact ⟨sub', h0, h1.trans (by decide), h2.trans (by decide)⟩

theorem canonical_applyEventFields (eo md : JsonVal) (sub : Subscription)
    (h : canonicalSub sub) : canonicalSub (applyEventFields eo md sub) := by
  obtain ⟨hp, hs⟩ := h
  constructor
  · rw [applyEventFields_plan]
    cases hnp : normalize_plan (planSource eo md) with
    | none => simpa using hp
    | some p => simpa using normalize_plan_canonical _ _ hnp
  · rw [applyEventFields_status]
    cases hns : normalize_status (eo.getStr "status") with
    | none => simpa using hs
    | some st => simpa using normalize_status_canonical _ _ hns

/-- Claim C9: the reconciler preserves the closed-enum invariant — if
every stored subscription has a canonical plan and status, the same holds
after processing any event payload whatsoever. -/
theorem process_subscription_event_closed_enums :
    ∀ (db : DBState) (payload : JsonVal),
      (∀ oid s, subFor db oid = some s → canonicalSub s) →
      ∀ oid s', subFor (process_subscription_event db payload).1 oid = some s' →
        canonicalSub s' := by
  intro db payload hinv oid s' hs'
  by_cases h1 : jsonStrMem (payload.get "type") recognizedEventTypes
  · cases hslug : (metadataOf payload).getStr "organization_slug" with
    | none =>
      simp [process_subscription_event, h1, hslug] at hs'
      exact hinv _ _ hs'
    | some slug =>
      by_cases h2 : slug = ""
      · simp [process_subscription_event, h1, hslug, h2] at hs'
        exact hinv _ _ hs'
      · cases horg : db.organizations.find? (fun o => o.slug == slug) with
        | none =>
          simp [process_subscription_event, h1, hslug, h2, horg] at hs'
          exact hinv _ _ hs'
        | some org =>
          have hred : (process_subscription_event db payload).1 =
              setSub (get_or_create_subscription db org.id).1 org.id
                (applyEventFields (eventObjectOf payload) (metadataOf payload)
                  (get_or_create_subscription db org.id).2) := by
            simp [process_subscription_event, h1, hslug, h2, horg]
          rw [hred] at hs'
          by_cases hoid : oid = org.id
          · subst hoid
            rw [subFor_setSub] at hs'
            cases hs'
            cases hsub : subFor db org.id with
            | some sub =>
              have hg : get_or_create_subscription db org.id = (db, sub) := by
                unfold get_or_create_subscription; rw [hsub]
              rw [hg]
              exact canonical_applyEventFields _ _ _ (hinv _ _ hsub)
            | none =>
              have hg : get_or_create_subscription db org.id =
                  (setSub db org.id defaultSubscription, defaultSubscription) := by
                unfold get_or_create_subscription; rw [hsub]
              rw [hg]
              exact canonical_applyEventFields _ _ _
                (by constructor <;> simp [defaultSubscription])
          · rw [subFor_setSub_other _ _ _ _ hoid] at hs'
            cases hsub : subFor db org.id with
            | some sub =>
              have hg : get_or_create_subscription db org.id = (db, sub) := by
                unfold get_or_create_subscription; rw [hsub]
              rw [hg] at hs'
              exact hinv _ _ hs'
            | none =>
              have hg : get_or_create_subscription db org.id =
                  (setSub db org.id defaultSubscription, defaultSubscription) := by
                unfold get_or_create_subscription; rw [hsub]
              rw [hg] at hs'
              dsimp only at hs'
              rw [subFor_setSub_other _ _ _ _ hoid] at hs'
              exact hinv _ _ hs'
  · simp [process_subscription_event, h1] at hs'
    exact hinv _ _ hs'

/-- Witness for claim C9: lazily created then canceled subscription is
canonical. -/
theorem process_subscription_event_closed_enums_witness :
    canonicalSub demoLazySub :=
  process_subscription_event_closed_enums demoDbEmpty demoPayload
    (by intro oid s h; simp [subFor, demoDbEmpty] at h) 1 demoLazySub (by decide)

/-- Claim C6: with no configured secret, signature verification passes
for every payload and signature; with a configured secret, a missing
signature or one unequal to the HMAC of the raw bytes is rejected with 401
before any JSON parsing or store access, leaving the state unchanged. -/
theorem webhook_signature_gate :
    (∀ (hmacHex : String → List Nat → String) (raw : List Nat) (sig secret : Option String),
      truthyStr secret = false → verify_hmac_signature hmacHex raw sig secret = true) ∧
    (∀ (hmacHex : String → List Nat → String) (jsonLoads : List Nat → Option JsonVal)
      (s : String) (db : DBState) (raw : List Nat) (eid sig : Option String),
      s ≠ "" →
      (sig = none ∨ ∃ t, sig = some t ∧ t ≠ hmacHex s raw) →
      verify_hmac_signature hmacHex raw sig (some s) = false ∧
      process_stripe_webhook hmacHex jsonLoads (some s) db raw eid sig =
        (db, .unauthorized)) := by
  constructor
  · intro hmacHex raw sig secret hsec
    unfold verify_hmac_signature
    simp [hsec]
  · intro hmacHex jsonLoads s db raw eid sig hs hsig
    have hv : verify_hmac_signature hmacHex raw sig (some s) = false := by
      rcases hsig with rfl | ⟨t, rfl, hne⟩
      · simp [verify_hmac_signature, truthyStr, hs]
      · by_cases ht : t = ""
        · simp [verify_hmac_signature, truthyStr, hs, ht]
        · simp [verify_hmac_signature, truthyStr, hs, ht, hne]
    exact ⟨hv, by simp [process_stripe_webhook, hv]⟩

/-- Witness for claim C6 at a concrete secret and bad signature. -/
theorem webhook_signature_gate_witness :
    verify_hmac_signature demoHmac [] (some "anything") none = true ∧
    verify_hmac_signature demoHmac [] (some "bad") (some "whsec") = false ∧
    process_stripe_webhook demoHmac demoLoads (some "whsec") demoDb [] none (some "bad") =
      (demoDb, .unauthorized) := by
  have h := webhook_signature_gate.2 demoHmac demoLoads "whsec" demoDb [] none (some "bad")
    (by decide) (Or.inr ⟨"bad", rfl, by decide⟩)
  exact ⟨webhook_signature_gate.1 demoHmac [] (some "anything") none rfl, h.1, h.2⟩

/-- Claim C1: an existing ledger row with the same idempotency key
short-circuits the webhook to a duplicate response with the store untouched
and the reconciler not invoked; on a fresh key the first delivery returns
processed and an identical redelivery returns duplicate without further
mutation — exactly one subscription mutation across both deliveries. -/
theorem webhook_idempotency :
    ∀ (hmacHex : String → List Nat → String) (jsonLoads : List Nat → Option JsonVal)
      (secret : Option String) (db : DBState) (raw : List Nat)
      (eid sig : Option String) (payload : JsonVal) (k : String),
      verify_hmac_signature hmacHex raw sig secret = true →
      jsonLoads raw = some payload →
      pyOrStr eid (payload.getStr "id") = some k → k ≠ "" →
      (∀ e, db.billing_events.find? (fun ev => ev.idempotency_key == k) = some e →
        process_stripe_webhook hmacHex jsonLoads secret db raw eid sig =
          (db, .duplicate k e.event_type)) ∧
      (db.billing_events.find? (fun ev => ev.idempotency_key == k) = none →
        (process_stripe_webhook hmacHex jsonLoads secret db raw eid sig).2 =
          .processed k (process_subscription_event db payload).2.1 ∧
        process_stripe_webhook hmacHex jsonLoads secret
            ((process_stripe_webhook hmacHex jsonLoads secret db raw eid sig).1)
            raw eid sig =
          ((process_stripe_webhook hmacHex jsonLoads secret db raw eid sig).1,
            .duplicate k ((payload.getStr "type").getD "unknown"))) := by
  intro hmacHex jsonLoads secret db raw eid sig payload k hv hload hkey hkne
  constructor
  · intro e hfind
    simp [process_stripe_webhook, hv, hload, hkey, truthyStr, hkne, hfind]
  · intro hfind
    have hfirst : process_stripe_webhook hmacHex jsonLoads secret db raw eid sig =
        ({ (process_subscription_event db payload).1 with billing_events :=
            ((process_subscription_event db payload).1).billing_events ++
              [{ organization_id := (process_subscription_event db payload).2.2,
                 event_type := (payload.getStr "type").getD "unknown",
                 idempotency_key := k, payload := payload }] },
          .processed k (process_subscription_event db payload).2.1) := by
      simp [process_stripe_webhook, hv, hload, hkey, truthyStr, hkne, hfind]
    refine ⟨by rw [hfirst], ?_⟩
    rw [hfirst]
    have hfind2 :
        ({ (process_subscription_event db payload).1 with billing_events :=
            ((process_subscription_event db payload).1).billing_events ++
              [{ organization_id := (process_subscription_event db payload).2.2,
                 event_type := (payload.getStr "type").getD "unknown",
                 idempotency_key := k, payload := payload }] } : DBState).billing_events.find?
          (fun ev => ev.idempotency_key == k) =
          some { organization_id := (process_subscription_event db payload).2.2,
                 event_type := (payload.getStr "type").getD "unknown",
                 idempotency_key := k, payload := payload } := by
      show (((process_subscription_event db payload).1).billing_events ++
          [({ organization_id := (process_subscription_event db payload).2.2,
              event_type := (payload.getStr "type").getD "unknown",
              idempotency_key := k, payload := payload } : BillingEvent)]).find?
          (fun ev => ev.idempotency_key == k) = _
      rw [List.find?_append, psev_billing_events, hfind]
      simp
    simp [process_stripe_webhook, hv, hload, hkey, truthyStr, hkne, hfind2]

/-- Witness for claim C1: concrete double delivery of evt_1. -/
theorem webhook_idempotency_witness :
    (process_stripe_webhook demoHmac demoLoads none demoDb [] none none).2 =
      .processed "evt_1" true ∧
    process_stripe_webhook demoHmac demoLoads none
        ((process_stripe_webhook demoHmac demoLoads none demoDb [] none none).1)
        [] none none =
      ((process_stripe_webhook demoHmac demoLoads none demoDb [] none none).1,
        .duplicate "evt_1" "customer.subscription.updated") := by
  have h := (webhook_idempotency demoHmac demoLoads none demoDb [] none none demoPayload
    "evt_1" rfl rfl rfl (by decide)).2 rfl
  exact ⟨h.1.trans (by decide), h.2.trans rfl⟩

/-- Claim C8: a signed, fresh-key webhook whose reconciliation is a no-op
(unrecognized type or unresolvable tenant) is still accepted as processed
with updated_subscription false, appends a ledger row with a null
organization id, and changes no subscription. -/
theorem webhook_unrecognized_absorbed :
    ∀ (hmacHex : String → List Nat → String) (jsonLoads : List Nat → Option JsonVal)
      (secret : Option String) (db : DBState) (raw : List Nat)
      (eid sig : Option String) (payload : JsonVal) (k : String),
      verify_hmac_signature hmacHex raw sig secret = true →
      jsonLoads raw = some payload →
      pyOrStr eid (payload.getStr "id") = some k → k ≠ "" →
      db.billing_events.find? (fun ev => ev.idempotency_key == k) = none →
      (process_subscription_event db payload).2 = (false, none) →
      process_stripe_webhook hmacHex jsonLoads secret db raw eid sig =
        ({ db with billing_events := db.billing_events ++
            [{ organization_id := none,
               event_type := (payload.getStr "type").getD "unknown",
               idempotency_key := k, payload := payload }] },
          .processed k false) ∧
      (process_stripe_webhook hmacHex jsonLoads secret db raw eid sig).1.subscriptions =
        db.subscriptions := by
  intro hmacHex jsonLoads secret db raw eid sig payload k hv hload hkey hkne hfind hr
  have hnoop : process_subscription_event db payload = (db, false, none) :=
    psev_noop db payload (by rw [hr])
  have hmain : process_stripe_webhook hmacHex jsonLoads secret db raw eid sig =
      ({ db with billing_events := db.billing_events ++
          [{ organization_id := none,
             event_type := (payload.getStr "type").getD "unknown",
             idempotency_key := k, payload := payload }] },
        .processed k false) := by
    simp [process_stripe_webhook, hv, hload, hkey, truthyStr, hkne, hfind, hnoop]
  exact ⟨hmain, by rw [hmain]⟩

/-- Witness for claim C8: concrete unknown-event-type delivery. -/
theorem webhook_unrecognized_absorbed_witness :
    process_stripe_webhook demoHmac demoLoadsUnknown none demoDb [] none none =
      ({ demoDb with billing_events := demoDb.billing_events ++
          [{ organization_id := none, event_type := "invoice.paid",
             idempotency_key := "evt_2", payload := demoUnknownPayload }] },
        .processed "evt_2" false) ∧
    (process_stripe_webhook demoHmac demoLoadsUnknown none demoDb [] none none).1.subscriptions =
      demoDb.subscriptions := by
  have h := webhook_unrecognized_absorbed demoHmac demoLoadsUnknown none demoDb [] none none
    demoUnknownPayload "evt_2" rfl rfl rfl (by decide) rfl (by decide)
  exact ⟨h.1.trans rfl, h.2⟩

/-- Claim C10: the administrative subscription PATCH writes only the plan
and status fields; stripe_customer_id, stripe_subscription_id and
current_period_end keep their prior values. -/
theorem update_subscription_frame :
    ∀ (subscription : Subscription) (payload : SubscriptionPatchRequest),
      (update_subscription subscription payload).stripe_customer_id =
        subscription.stripe_customer_id ∧
      (update_subscription subscription payload).stripe_subscription_id =
        subscription.stripe_subscription_id ∧
      (update_subscription subscription payload).current_period_end =
        subscription.current_period_end ∧
      (update_subscription subscription payload).plan = payload.plan ∧
      (update_subscription subscription payload).status = payload.status := by
  intro subscription payload
  exact ⟨rfl, rfl, rfl, rfl, rfl⟩
